import Mathlib

/-!
Verification of the command execution and interaction core of a Docker
management CLI (src/main.py). The subprocess layer is modelled by an
environment assigning to each argument vector the outcome of spawning it:
either a completed process (exit status plus captured streams) or an
OS-level fault (binary not found, other OS error). Operator input lines
are passed to each operation as explicit string arguments, in the order
the source reads them with input(). Each operation produces a trace of
the argument vectors it handed to subprocess, the lines it printed, and
the fault, if any, escaping it uncaught.
-/

/-- Result object of a completed child process in captured mode:
exit status, captured stdout and captured stderr (src/main.py line 34). -/
structure SpawnResult where
  returncode : Int
  stdout : String
  stderr : String
  deriving DecidableEq

/-- An OS-level spawn fault: the exception subprocess.run raises when no
process could be started (FileNotFoundError for a missing binary, another
OSError otherwise). Neither is a subprocess.CalledProcessError, so neither
is caught by run_command or run_command_interactive. -/
inductive ExecutionFault where
  | fileNotFound
  | osError
  deriving DecidableEq

/-- Outcome of asking the operating system to spawn an argument vector. -/
inductive SpawnOutcome where
  | ran (r : SpawnResult)
  | fault (f : ExecutionFault)
  deriving DecidableEq

/-- The external world as the program sees it: what spawning each argument
vector does, and which paths exist on the filesystem (os.path.exists). -/
structure Env where
  spawn : List String → SpawnOutcome
  fileExists : String → Bool

/-- Python str.strip() with no argument: remove whitespace from both ends
of the string. -/
def pyStrip (s : String) : String :=
  String.mk (((s.data.dropWhile Char.isWhitespace).reverse.dropWhile Char.isWhitespace).reverse)

/-- Python str.lower(): lowercase every character. -/
def pyLower (s : String) : String :=
  String.mk (s.data.map Char.toLower)

/-- Python truthiness of an Optional[str] value: None and the empty
string are falsy, every other string is truthy. -/
def truthy : Option String → Bool
  | none => false
  | some s => !s.isEmpty

/-- DockerManager.run_command (src/main.py lines 31-38). Runs the command
with capture_output=True, check=True. On exit status zero it returns the
stripped stdout and prints nothing; on a non-zero exit the
CalledProcessError is caught, the stripped stderr is printed and None is
returned. A spawn fault (FileNotFoundError / OSError) is not caught and
propagates to the caller. The returned pair is (Python return value,
lines printed). -/
def run_command (env : Env) (command : List String) :
    Except ExecutionFault (Option String × List String) :=
  match env.spawn command with
  | .fault f => .error f
  | .ran r =>
      if r.returncode = 0 then
        .ok (some (pyStrip r.stdout), [])
      else
        .ok (none, ["❌ Error ejecutando comando: " ++ pyStrip r.stderr])

/-- DockerManager.run_command_interactive (src/main.py lines 40-46). Runs
the command inheriting the terminal streams, check=True. Returns whether
the exit status was zero; CalledProcessError is caught and yields False;
a spawn fault propagates uncaught. -/
def run_command_interactive (env : Env) (command : List String) :
    Except ExecutionFault Bool :=
  match env.spawn command with
  | .fault f => .error f
  | .ran r => if r.returncode = 0 then .ok true else .ok false

/-- Trace of one resource operation: the argument vectors handed to
subprocess.run in order, the lines printed, and the fault escaping the
operation uncaught, if any. -/
structure OpTrace where
  commands : List (List String)
  output : List String
  fault : Option ExecutionFault
  deriving DecidableEq

/-- A string of n dashes, modelling Python's "-" * n. -/
def dashes (n : Nat) : String :=
  String.mk (List.replicate n '-')

/-- Go-template format string of the images listing (src/main.py line 61). -/
def imagesFormat : String :=
  "table \x7b\x7b.Repository\x7d\x7d\t\x7b\x7b.Tag\x7d\x7d\t\x7b\x7b.ID\x7d\x7d\t\x7b\x7b.Size\x7d\x7d\t\x7b\x7b.CreatedSince\x7d\x7d"

/-- Argument vector of the images listing (src/main.py lines 60-61). -/
def images_cmd : List String :=
  ["docker", "images", "--format", imagesFormat]

/-- Go-template format string of the container listing (src/main.py line 133). -/
def psFormat : String :=
  "table \x7b\x7b.ID\x7d\x7d\t\x7b\x7b.Names\x7d\x7d\t\x7b\x7b.Image\x7d\x7d\t\x7b\x7b.Status\x7d\x7d\t\x7b\x7b.Ports\x7d\x7d"

/-- Argument vector of the container listing; with all_containers the flag
-a is inserted at index 2 (src/main.py lines 132-135). -/
def ps_cmd (all_containers : Bool) : List String :=
  if all_containers then ["docker", "ps", "-a", "--format", psFormat]
  else ["docker", "ps", "--format", psFormat]

/-- ImageManager.list_images (src/main.py lines 55-65): runs the images
listing captured and prints the result verbatim if truthy, else a
diagnostic. -/
def list_images (env : Env) : OpTrace :=
  let header := ["\n📦 IMÁGENES DOCKER DISPONIBLES:", dashes 80]
  match run_command env images_cmd with
  | .error f => { commands := [images_cmd], output := header, fault := some f }
  | .ok (res, errOut) =>
      { commands := [images_cmd]
        output := header ++ errOut ++
          (match res with
           | some s => if s.isEmpty then ["No se pudieron listar las imágenes"] else [s]
           | none => ["No se pudieron listar las imágenes"])
        fault := none }

/-- ContainerManager.list_containers (src/main.py lines 126-141). -/
def list_containers (env : Env) (all_containers : Bool) : OpTrace :=
  let status := if all_containers then "TODOS LOS CONTENEDORES" else "CONTENEDORES ACTIVOS"
  let header := ["\n🐳 " ++ status ++ ":", dashes 100]
  match run_command env (ps_cmd all_containers) with
  | .error f => { commands := [ps_cmd all_containers], output := header, fault := some f }
  | .ok (res, errOut) =>
      { commands := [ps_cmd all_containers]
        output := header ++ errOut ++
          (match res with
           | some s => if s.isEmpty then ["No se pudieron listar los contenedores"] else [s]
           | none => ["No se pudieron listar los contenedores"])
        fault := none }

/-- Confirmation gate as the source implements it at src/main.py lines 92-93,
225-226 and 282-283: the operator's raw answer, stripped and lowercased, must
equal the single letter s; every other answer (including the empty default)
aborts. -/
def proceed (confirm_raw : String) : Bool :=
  pyLower (pyStrip confirm_raw) == "s"

/-- ImageManager.pull_image (src/main.py lines 67-80); image_name_raw is
the operator's raw input line. -/
def pull_image (env : Env) (image_name_raw : String) : OpTrace :=
  let header := ["\n⬇️ DESCARGAR IMAGEN"]
  let image_name := pyStrip image_name_raw
  if image_name.isEmpty then
    { commands := [], output := header ++ ["❌ Nombre de imagen no puede estar vacío"],
      fault := none }
  else
    let out1 := header ++ ["Descargando imagen: " ++ image_name ++ "..."]
    match run_command_interactive env ["docker", "pull", image_name] with
    | .error f =>
        { commands := [["docker", "pull", image_name]], output := out1, fault := some f }
    | .ok true =>
        { commands := [["docker", "pull", image_name]]
          output := out1 ++ ["✅ Imagen " ++ image_name ++ " descargada exitosamente"]
          fault := none }
    | .ok false =>
        { commands := [["docker", "pull", image_name]]
          output := out1 ++ ["❌ Error al descargar la imagen " ++ image_name]
          fault := none }

/-- ImageManager.remove_image (src/main.py lines 82-97): lists images,
prompts for the id, validates non-emptiness, asks the confirmation gate,
and only on the answer s runs docker rmi captured. -/
def remove_image (env : Env) (image_id_raw confirm_raw : String) : OpTrace :=
  let lst := list_images env
  match lst.fault with
  | some _ => lst
  | none =>
      let out0 := lst.output ++ ["\n🗑️ ELIMINAR IMAGEN"]
      let image_id := pyStrip image_id_raw
      if image_id.isEmpty then
        { commands := lst.commands, output := out0 ++ ["❌ ID de imagen no puede estar vacío"],
          fault := none }
      else if proceed confirm_raw then
        match run_command env ["docker", "rmi", image_id] with
        | .error f =>
            { commands := lst.commands ++ [["docker", "rmi", image_id]], output := out0,
              fault := some f }
        | .ok (res, errOut) =>
            { commands := lst.commands ++ [["docker", "rmi", image_id]]
              output := out0 ++ errOut ++
                (if truthy res then ["✅ Imagen " ++ image_id ++ " eliminada exitosamente"]
                 else ["❌ Error al eliminar la imagen " ++ image_id])
              fault := none }
      else
        { commands := lst.commands, output := out0, fault := none }

/-- Argument vector built by ContainerManager.run_container
(src/main.py lines 154-162): optional fields contribute their flag and
value only when non-empty, the image name is appended last. -/
def build_run_args (image_name container_name port_mapping : String) : List String :=
  ["docker", "run", "-d"]
    ++ (if container_name.isEmpty then [] else ["--name", container_name])
    ++ (if port_mapping.isEmpty then [] else ["-p", port_mapping])
    ++ [image_name]

/-- ContainerManager.run_container (src/main.py lines 143-168); the three
raw arguments are the operator's input lines in source order. -/
def run_container (env : Env) (image_raw name_raw port_raw : String) : OpTrace :=
  let header := ["\n🚀 EJECUTAR CONTENEDOR"]
  let image_name := pyStrip image_raw
  let container_name := pyStrip name_raw
  let port_mapping := pyStrip port_raw
  if image_name.isEmpty then
    { commands := [], output := header ++ ["❌ Nombre de imagen no puede estar vacío"],
      fault := none }
  else
    let cmd := build_run_args image_name container_name port_mapping
    match run_command env cmd with
    | .error f => { commands := [cmd], output := header, fault := some f }
    | .ok (res, errOut) =>
        { commands := [cmd]
          output := header ++ errOut ++
            (match res with
             | some s =>
                 if s.isEmpty then ["❌ Error al iniciar el contenedor"]
                 else ["✅ Contenedor iniciado con ID: " ++ s.take 12]
             | none => ["❌ Error al iniciar el contenedor"])
          fault := none }

/-- ContainerManager.stop_container (src/main.py lines 170-183): lists all
containers, prompts for the id, validates non-emptiness, then runs
docker stop captured. -/
def stop_container (env : Env) (container_id_raw : String) : OpTrace :=
  let lst := list_containers env true
  match lst.fault with
  | some _ => lst
  | none =>
      let out0 := lst.output ++ ["\n⏹️ DETENER CONTENEDOR"]
      let container_id := pyStrip container_id_raw
      if container_id.isEmpty then
        { commands := lst.commands,
          output := out0 ++ ["❌ ID de contenedor no puede estar vacío"], fault := none }
      else
        match run_command env ["docker", "stop", container_id] with
        | .error f =>
            { commands := lst.commands ++ [["docker", "stop", container_id]], output := out0,
              fault := some f }
        | .ok (res, errOut) =>
            { commands := lst.commands ++ [["docker", "stop", container_id]]
              output := out0 ++ errOut ++
                (if truthy res then ["✅ Contenedor " ++ container_id ++ " detenido"]
                 else ["❌ Error al detener el contenedor " ++ container_id])
              fault := none }

/-- ContainerManager.remove_container (src/main.py lines 215-231): lists all
containers, prompts for the id, validates non-emptiness, asks the
confirmation gate, and only on the answer s runs docker rm -f captured. -/
def remove_container (env : Env) (container_id_raw confirm_raw : String) : OpTrace :=
  let lst := list_containers env true
  match lst.fault with
  | some _ => lst
  | none =>
      let out0 := lst.output ++ ["\n🗑️ ELIMINAR CONTENEDOR"]
      let container_id := pyStrip container_id_raw
      if container_id.isEmpty then
        { commands := lst.commands,
          output := out0 ++ ["❌ ID de contenedor no puede estar vacío"], fault := none }
      else if proceed confirm_raw then
        match run_command env ["docker", "rm", "-f", container_id] with
        | .error f =>
            { commands := lst.commands ++ [["docker", "rm", "-f", container_id]],
              output := out0, fault := some f }
        | .ok (res, errOut) =>
            { commands := lst.commands ++ [["docker", "rm", "-f", container_id]]
              output := out0 ++ errOut ++
                (if truthy res then ["✅ Contenedor " ++ container_id ++ " eliminado"]
                 else ["❌ Error al eliminar el contenedor " ++ container_id])
              fault := none }
      else
        { commands := lst.commands, output := out0, fault := none }

/-- ImageManager.build_image (src/main.py lines 99-117): the path input
defaults to "." when empty after stripping, the image name must be
non-empty, and path/Dockerfile must exist before docker build runs
interactively. -/
def build_image (env : Env) (path_raw name_raw : String) : OpTrace :=
  let header := ["\n🔨 CONSTRUIR IMAGEN"]
  let dockerfile_path := if (pyStrip path_raw).isEmpty then "." else pyStrip path_raw
  let image_name := pyStrip name_raw
  if image_name.isEmpty then
    { commands := [], output := header ++ ["❌ Nombre de imagen no puede estar vacío"],
      fault := none }
  else if !env.fileExists (dockerfile_path ++ "/Dockerfile") then
    { commands := [],
      output := header ++ ["❌ No se encontró Dockerfile en " ++ dockerfile_path],
      fault := none }
  else
    let out1 := header ++ ["Construyendo imagen " ++ image_name ++ "..."]
    let cmd := ["docker", "build", "-t", image_name, dockerfile_path]
    match run_command_interactive env cmd with
    | .error f => { commands := [cmd], output := out1, fault := some f }
    | .ok true =>
        { commands := [cmd],
          output := out1 ++ ["✅ Imagen " ++ image_name ++ " construida exitosamente"],
          fault := none }
    | .ok false =>
        { commands := [cmd],
          output := out1 ++ ["❌ Error al construir la imagen " ++ image_name],
          fault := none }

/-- Fixed lines SystemManager.system_cleanup prints before its
confirmation gate (src/main.py lines 275-280). -/
def cleanupHeader : List String :=
  ["\n🧹 LIMPIEZA DEL SISTEMA", "Esto eliminará:", "- Contenedores detenidos",
   "- Redes no utilizadas", "- Imágenes sin referencia", "- Caché de construcción"]

/-- SystemManager.system_cleanup (src/main.py lines 273-287): asks the
confirmation gate and only on the answer s runs docker system prune -a -f
interactively. -/
def system_cleanup (env : Env) (confirm_raw : String) : OpTrace :=
  if proceed confirm_raw then
    match run_command_interactive env ["docker", "system", "prune", "-a", "-f"] with
    | .error f =>
        { commands := [["docker", "system", "prune", "-a", "-f"]], output := cleanupHeader,
          fault := some f }
    | .ok true =>
        { commands := [["docker", "system", "prune", "-a", "-f"]],
          output := cleanupHeader ++ ["✅ Limpieza completada"], fault := none }
    | .ok false =>
        { commands := [["docker", "system", "prune", "-a", "-f"]],
          output := cleanupHeader ++ ["❌ Error durante la limpieza"], fault := none }
  else
    { commands := [], output := cleanupHeader, fault := none }

/-- Top-level fault boundary of DockerCLI.run (src/main.py lines 450-453):
any exception escaping the menu loop is caught exactly once at the
outermost level, reported as an unexpected error, and the session ends
without re-raising. -/
def run_fault_boundary (t : OpTrace) : OpTrace :=
  match t.fault with
  | none => t
  | some _ =>
      { commands := t.commands, output := t.output ++ ["\n❌ Error inesperado"], fault := none }

/-- Reference to one resource operation reachable from the menus; the
session controller dispatches to these (src/main.py lines 358-427). -/
inductive OpRef where
  | listImages | pullImage | buildImage | removeImage
  | listActiveContainers | listAllContainers | runNewContainer | startContainer
  | stopContainer | restartContainer | removeContainer | viewLogs | execContainer
  | systemInfo | diskUsage | systemCleanup
  deriving DecidableEq

/-- States of the interactive session controller in which an operator
selection is read: the main menu loop of DockerCLI.run and the three
nested menu loops (src/main.py lines 358-448). Session end (option 4 of
the main menu) is modelled as the step yielding no successor state. -/
inductive MenuState where
  | main | image | container | system
  deriving DecidableEq

/-- Option strings recognised in each menu state by the conditional
chains of src/main.py lines 364-375, 385-406, 416-425 and 437-447. -/
def menu_options : MenuState → List String
  | .main => ["1", "2", "3", "4"]
  | .image => ["1", "2", "3", "4", "5"]
  | .container => ["1", "2", "3", "4", "5", "6", "7", "8", "9", "10"]
  | .system => ["1", "2", "3", "4"]

/-- One step of the session controller: from a state and the operator's
raw selection line (stripped by the source before comparison), the
successor state (none when the session ends), the resource operation
dispatched, and the diagnostic lines printed by the dispatch itself.
Transcribed from the conditional chains of DockerCLI.handle_image_menu,
handle_container_menu, handle_system_menu and run
(src/main.py lines 358-448). -/
def menu_step (s : MenuState) (raw : String) :
    Option MenuState × Option OpRef × List String :=
  let choice := pyStrip raw
  match s with
  | .main =>
      if choice = "1" then (some .image, none, [])
      else if choice = "2" then (some .container, none, [])
      else if choice = "3" then (some .system, none, [])
      else if choice = "4" then (none, none, ["\n👋 ¡Gracias por usar Docker Management CLI!"])
      else (some .main, none, ["❌ Opción inválida"])
  | .image =>
      if choice = "1" then (some .image, some .listImages, [])
      else if choice = "2" then (some .image, some .pullImage, [])
      else if choice = "3" then (some .image, some .buildImage, [])
      else if choice = "4" then (some .image, some .removeImage, [])
      else if choice = "5" then (some .main, none, [])
      else (some .image, none, ["❌ Opción inválida"])
  | .container =>
      if choice = "1" then (some .container, some .listActiveContainers, [])
      else if choice = "2" then (some .container, some .listAllContainers, [])
      else if choice = "3" then (some .container, some .runNewContainer, [])
      else if choice = "4" then (some .container, some .startContainer, [])
      else if choice = "5" then (some .container, some .stopContainer, [])
      else if choice = "6" then (some .container, some .restartContainer, [])
      else if choice = "7" then (some .container, some .removeContainer, [])
      else if choice = "8" then (some .container, some .viewLogs, [])
      else if choice = "9" then (some .container, some .execContainer, [])
      else if choice = "10" then (some .main, none, [])
      else (some .container, none, ["❌ Opción inválida"])
  | .system =>
      if choice = "1" then (some .system, some .systemInfo, [])
      else if choice = "2" then (some .system, some .diskUsage, [])
      else if choice = "3" then (some .system, some .systemCleanup, [])
      else if choice = "4" then (some .main, none, [])
      else (some .system, none, ["❌ Opción inválida"])

/-- Test environment: every spawn fails with binary-not-found. -/
def envMissing : Env :=
  { spawn := fun _ => .fault .fileNotFound, fileExists := fun _ => false }

/-- Test environment: every command runs and exits 1 with stderr text. -/
def envFail : Env :=
  { spawn := fun _ => .ran { returncode := 1, stdout := "", stderr := "boom" },
    fileExists := fun _ => true }

/-- Test environment: every command runs and exits 0 with stdout OUT. -/
def envOk : Env :=
  { spawn := fun _ => .ran { returncode := 0, stdout := "OUT\n", stderr := "" },
    fileExists := fun _ => true }

/-- Test environment: every command runs and exits 0 with whitespace-only
stdout. -/
def envBlank : Env :=
  { spawn := fun _ => .ran { returncode := 0, stdout := "  \n", stderr := "" },
    fileExists := fun _ => true }

/-- C1: for every command whose first token names an existing engine binary
(the spawn completes with some result r), if the child exits non-zero then
run_command returns the failure value None after printing the child's
stripped stderr and raises no exception, and conversely any non-None
return implies the exit status was zero. -/
theorem run_command_nonzero_exit_c1 (env : Env) (command : List String)
    (r : SpawnResult) (hran : env.spawn command = .ran r) :
    (r.returncode ≠ 0 →
      run_command env command
        = .ok (none, ["❌ Error ejecutando comando: " ++ pyStrip r.stderr]))
  ∧ (∀ s out, run_command env command = .ok (some s, out) → r.returncode = 0) := by
  unfold run_command
  rw [hran]
  constructor
  · intro hnz
    simp [hnz]
  · intro s out h
    by_cases h0 : r.returncode = 0
    · exact h0
    · simp [h0] at h

/-- Witness for C1 at a concrete environment whose every command exits 1
with stderr boom. -/
theorem run_command_nonzero_exit_c1_witness :
    run_command envFail ["docker", "rmi", "abc"]
      = .ok (none, ["❌ Error ejecutando comando: boom"]) := by
  have h := (run_command_nonzero_exit_c1 envFail ["docker", "rmi", "abc"]
      { returncode := 1, stdout := "", stderr := "boom" } rfl).1 (by decide)
  have e : pyStrip "boom" = "boom" := by decide
  simp only [e] at h
  exact h

/-- C2: for every command whose first token names a nonexistent binary (the
spawn raises an OS-level fault f), both run_command and
run_command_interactive propagate the ExecutionFault as an exception and
return no result claiming execution occurred. -/
theorem missing_binary_fault_c2 (env : Env) (command : List String)
    (f : ExecutionFault) (h : env.spawn command = .fault f) :
    run_command env command = .error f
  ∧ run_command_interactive env command = .error f := by
  unfold run_command run_command_interactive
  rw [h]
  exact ⟨rfl, rfl⟩

/-- Witness for C2 at a concrete environment with no engine binary. -/
theorem missing_binary_fault_c2_witness :
    run_command envMissing ["docker", "ps"] = .error .fileNotFound
  ∧ run_command_interactive envMissing ["docker", "ps"] = .error .fileNotFound :=
  missing_binary_fault_c2 envMissing ["docker", "ps"] .fileNotFound rfl

/-- C3: a destructive argument vector (docker rmi, docker rm -f,
docker system prune -a -f) is executed only when the confirmation gate
evaluates to proceed; on every other answer (default no on empty or
ambiguous input) the destructive command is never built nor run, the
operation's only executor calls are the orienting listing it already made
before the prompt (none at all for system_cleanup), and system_cleanup
returns cleanly printing nothing beyond its fixed header. -/
theorem confirmation_gate_c3 (env : Env) (id_raw confirm_raw : String) :
    (proceed confirm_raw = false →
        (remove_image env id_raw confirm_raw).commands = (list_images env).commands
      ∧ (remove_container env id_raw confirm_raw).commands
          = (list_containers env true).commands
      ∧ (system_cleanup env confirm_raw).commands = []
      ∧ (system_cleanup env confirm_raw).output = cleanupHeader
      ∧ (system_cleanup env confirm_raw).fault = none)
  ∧ (["docker", "rmi", pyStrip id_raw] ∈ (remove_image env id_raw confirm_raw).commands →
        proceed confirm_raw = true)
  ∧ (["docker", "rm", "-f", pyStrip id_raw]
        ∈ (remove_container env id_raw confirm_raw).commands →
        proceed confirm_raw = true)
  ∧ (["docker", "system", "prune", "-a", "-f"]
        ∈ (system_cleanup env confirm_raw).commands →
        proceed confirm_raw = true) := by
  by_cases hp : proceed confirm_raw = true
  · refine ⟨fun hfalse => by simp [hp] at hfalse, fun _ => hp, fun _ => hp, fun _ => hp⟩
  · have hp' : proceed confirm_raw = false := by
      cases hpp : proceed confirm_raw
      · rfl
      · exact absurd hpp hp
    have hri : (remove_image env id_raw confirm_raw).commands
        = (list_images env).commands := by
      unfold remove_image
      cases hf : (list_images env).fault with
      | some f => simp [hf]
      | none =>
          by_cases hid : (pyStrip id_raw).isEmpty
          · simp [hf, hid]
          · simp [hf, hid, hp']
    have hrc : (remove_container env id_raw confirm_raw).commands
        = (list_containers env true).commands := by
      unfold remove_container
      cases hf : (list_containers env true).fault with
      | some f => simp [hf]
      | none =>
          by_cases hid : (pyStrip id_raw).isEmpty
          · simp [hf, hid]
          · simp [hf, hid, hp']
    have hsc : system_cleanup env confirm_raw
        = { commands := [], output := cleanupHeader, fault := none } := by
      unfold system_cleanup
      simp [hp']
    have hlc : (list_images env).commands = [images_cmd] := by
      unfold list_images
      cases h : run_command env images_cmd with
      | error f => simp
      | ok p => cases p with | mk res errOut => simp
    have hlcc : (list_containers env true).commands = [ps_cmd true] := by
      unfold list_containers
      cases h : run_command env (ps_cmd true) with
      | error f => simp
      | ok p => cases p with | mk res errOut => simp
    refine ⟨fun _ => ⟨hri, hrc, by simp [hsc], by simp [hsc], by simp [hsc]⟩, ?_, ?_, ?_⟩
    · intro hmem
      rw [hri, hlc] at hmem
      simp [images_cmd] at hmem
    · intro hmem
      rw [hrc, hlcc] at hmem
      simp [ps_cmd] at hmem
    · intro hmem
      rw [hsc] at hmem
      simp at hmem

/-- Witness for C3 with the empty confirmation answer (the default no):
no destructive command is run by any of the three destructive operations. -/
theorem confirmation_gate_c3_witness :
    proceed "" = false
  ∧ (remove_image envOk "web1" "").commands = (list_images envOk).commands
  ∧ (remove_container envOk "web1" "").commands = (list_containers envOk true).commands
  ∧ (system_cleanup envOk "").commands = [] := by
  have hp : proceed "" = false := by decide
  have h := (confirmation_gate_c3 envOk "web1" "").1 hp
  exact ⟨hp, h.1, h.2.1, h.2.2.1⟩

/-- C4 counterexample: with no engine binary on the path, pull_image on the
image name nginx hands control upward still carrying the raw ExecutionFault
itself; the operation maps it to no EngineFailed-style result and prints no
failure line beyond its progress output, refuting the claim that the
operation maps an ExecutionFault to EngineFailed before returning. -/
theorem fault_mapping_c4_counterexample :
    (pull_image envMissing "nginx").fault = some ExecutionFault.fileNotFound
  ∧ (pull_image envMissing "nginx").output
      = ["\n⬇️ DESCARGAR IMAGEN", "Descargando imagen: nginx..."] := by
  exact ⟨by decide, by decide⟩

/-- C4 (amended): an ExecutionFault raised inside the executor during an
operation is not mapped by the operation; it propagates raw out of the
operation, and it is the session layer's outermost fault boundary that
catches it, reports a single unexpected-error line and ends the session
with no fault re-raised. -/
theorem fault_boundary_c4 (env : Env) (name_raw : String) (f : ExecutionFault)
    (h : (pull_image env name_raw).fault = some f) :
    run_fault_boundary (pull_image env name_raw)
      = { commands := (pull_image env name_raw).commands
          output := (pull_image env name_raw).output ++ ["\n❌ Error inesperado"]
          fault := none } := by
  unfold run_fault_boundary
  simp [h]

/-- Witness for C4 (amended) at the environment with no engine binary. -/
theorem fault_boundary_c4_witness :
    run_fault_boundary (pull_image envMissing "nginx")
      = { commands := [["docker", "pull", "nginx"]]
          output := ["\n⬇️ DESCARGAR IMAGEN", "Descargando imagen: nginx...",
                     "\n❌ Error inesperado"]
          fault := none } := by
  have h := fault_boundary_c4 envMissing "nginx" .fileNotFound (by decide)
  rw [h]
  decide

/-- C5: a confirmed container removal hands the executor exactly the tokens
docker rm -f id (forced removal always), while a confirmed image removal
hands it exactly docker rmi id with no force flag; in both cases the only
other executor call is the orienting listing made before the prompt. -/
theorem removal_commands_c5 (env : Env) (id_raw confirm_raw : String)
    (hid : (pyStrip id_raw).isEmpty = false) (hs : proceed confirm_raw = true)
    (hf1 : (list_containers env true).fault = none)
    (hf2 : (list_images env).fault = none) :
    (remove_container env id_raw confirm_raw).commands
      = (list_containers env true).commands ++ [["docker", "rm", "-f", pyStrip id_raw]]
  ∧ (remove_image env id_raw confirm_raw).commands
      = (list_images env).commands ++ [["docker", "rmi", pyStrip id_raw]] := by
  constructor
  · unfold remove_container
    cases h : run_command env ["docker", "rm", "-f", pyStrip id_raw] with
    | error f => simp [hf1, hid, hs, h]
    | ok p => cases p; simp [hf1, hid, hs, h]
  · unfold remove_image
    cases h : run_command env ["docker", "rmi", pyStrip id_raw] with
    | error f => simp [hf2, hid, hs, h]
    | ok p => cases p; simp [hf2, hid, hs, h]

/-- Witness for C5: identifier web1, confirmation answer s. -/
theorem removal_commands_c5_witness :
    (remove_container envOk "web1" "s").commands
      = (list_containers envOk true).commands ++ [["docker", "rm", "-f", "web1"]]
  ∧ (remove_image envOk "web1" "s").commands
      = (list_images envOk).commands ++ [["docker", "rmi", "web1"]] := by
  have h := removal_commands_c5 envOk "web1" "s" (by decide) (by decide)
      (by decide) (by decide)
  have e : pyStrip "web1" = "web1" := by decide
  simp only [e] at h
  exact h

/-- Strings with isEmpty false are not the empty string. -/
theorem isEmpty_false_ne (s : String) (h : s.isEmpty = false) : s ≠ "" := by
  intro he
  rw [he] at h
  exact absurd h (by decide)

/-- The run-container argument vector never contains an empty token when
the image name is non-empty, whatever the optional fields are. -/
theorem build_run_args_no_empty (i n p : String) (hi : i.isEmpty = false) :
    "" ∉ build_run_args i n p := by
  intro hmem
  by_cases hn : n.isEmpty <;> by_cases hp : p.isEmpty <;>
    simp [build_run_args, hn, hp] at hmem
  · exact isEmpty_false_ne i hi hmem.symm
  · rcases hmem with rfl | rfl
    · exact hp (by decide)
    · exact absurd hi (by decide)
  · rcases hmem with rfl | rfl
    · exact hn (by decide)
    · exact absurd hi (by decide)
  · rcases hmem with rfl | rfl | rfl
    · exact hn (by decide)
    · exact hp (by decide)
    · exact absurd hi (by decide)

/-- C6: with a non-empty image name and both optional fields empty, the
executor receives exactly docker run -d image; populating an optional
field adds exactly its flag-and-value pair (two more tokens than the
omitted call), and the built vector never contains an empty token. -/
theorem run_container_tokens_c6 (env : Env) (image_raw name_raw port_raw : String)
    (himg : (pyStrip image_raw).isEmpty = false) :
    (run_container env image_raw "" "").commands
      = [["docker", "run", "-d", pyStrip image_raw]]
  ∧ (run_container env image_raw name_raw port_raw).commands
      = [build_run_args (pyStrip image_raw) (pyStrip name_raw) (pyStrip port_raw)]
  ∧ ((pyStrip name_raw).isEmpty = false →
      (build_run_args (pyStrip image_raw) (pyStrip name_raw) (pyStrip port_raw)).length
        = (build_run_args (pyStrip image_raw) "" (pyStrip port_raw)).length + 2)
  ∧ ((pyStrip port_raw).isEmpty = false →
      (build_run_args (pyStrip image_raw) (pyStrip name_raw) (pyStrip port_raw)).length
        = (build_run_args (pyStrip image_raw) (pyStrip name_raw) "").length + 2)
  ∧ "" ∉ build_run_args (pyStrip image_raw) (pyStrip name_raw) (pyStrip port_raw) := by
  have hemp : pyStrip "" = "" := by decide
  have hie : "".isEmpty = true := rfl
  refine ⟨?_, ?_, ?_, ?_, build_run_args_no_empty _ _ _ himg⟩
  · have hb : build_run_args (pyStrip image_raw) "" ""
        = ["docker", "run", "-d", pyStrip image_raw] := by
      simp [build_run_args, hie]
    simp only [run_container, hemp, hb, himg, Bool.false_eq_true, if_false]
    cases h : run_command env ["docker", "run", "-d", pyStrip image_raw] with
    | error f => simp [h]
    | ok p => cases p; simp [h]
  · simp only [run_container, himg, Bool.false_eq_true, if_false]
    cases h : run_command env
        (build_run_args (pyStrip image_raw) (pyStrip name_raw) (pyStrip port_raw)) with
    | error f => simp [h]
    | ok p => cases p; simp [h]
  · intro hn
    simp [build_run_args, hn, hie]
  · intro hp
    simp [build_run_args, hp, hie]

/-- Witness for C6: image nginx:latest with empty optional fields yields
exactly the scenario tokens. -/
theorem run_container_tokens_c6_witness :
    (run_container envOk "nginx:latest" "" "").commands
      = [["docker", "run", "-d", "nginx:latest"]] := by
  have h := (run_container_tokens_c6 envOk "nginx:latest" "web" "8080:80" (by decide)).1
  have e : pyStrip "nginx:latest" = "nginx:latest" := by decide
  simp only [e] at h
  exact h

/-- Test environment whose stdout carries surrounding whitespace beyond a
single trailing newline. -/
def envUntrimmed : Env :=
  { spawn := fun _ =>
      .ran { returncode := 0, stdout := "REPOSITORY   TAG\nnginx   latest\n\n", stderr := "" },
    fileExists := fun _ => true }

/-- C7 counterexample: stop_container invoked with a whitespace-only
identifier does invoke the Command Executor once — for the orienting
container listing it renders before prompting — so the executor call count
in the empty-input case is not zero, refuting the claim that the executor
is never invoked at all in that case. -/
theorem validation_listing_c7_counterexample :
    pyStrip "   " = ""
  ∧ (stop_container envOk "   ").commands = [ps_cmd true]
  ∧ ps_cmd true ≠ ([] : List String) := by
  refine ⟨by decide, by decide, by decide⟩

/-- C7 (amended): a required textual input empty after trimming makes the
operation abort with a validation message and invoke the executor no
further — its only executor call is the orienting snapshot listing made
before the prompt, and operations without such a listing (pull, build)
spawn nothing at all; the build operation also returns a validation
failure without spawning whenever no Dockerfile exists at the given
path. -/
theorem validation_no_spawn_c7 (env : Env) (id_raw path_raw name_raw pull_raw : String) :
    ((pyStrip id_raw).isEmpty = true →
        (stop_container env id_raw).commands = (list_containers env true).commands
      ∧ (stop_container env id_raw).fault = (list_containers env true).fault)
  ∧ ((pyStrip name_raw).isEmpty = true →
        build_image env path_raw name_raw
          = { commands := [],
              output := ["\n🔨 CONSTRUIR IMAGEN", "❌ Nombre de imagen no puede estar vacío"],
              fault := none })
  ∧ ((pyStrip pull_raw).isEmpty = true →
        pull_image env pull_raw
          = { commands := [],
              output := ["\n⬇️ DESCARGAR IMAGEN", "❌ Nombre de imagen no puede estar vacío"],
              fault := none })
  ∧ (env.fileExists ((if (pyStrip path_raw).isEmpty then "." else pyStrip path_raw)
          ++ "/Dockerfile") = false →
        (build_image env path_raw name_raw).commands = []) := by
  refine ⟨?_, ?_, ?_, ?_⟩
  · intro hid
    unfold stop_container
    cases hf : (list_containers env true).fault with
    | some f => simp [hf]
    | none => simp [hf, hid]
  · intro hn
    simp [build_image, hn]
  · intro hp
    simp [pull_image, hp]
  · intro hfe
    by_cases hn : (pyStrip name_raw).isEmpty
    · simp [build_image, hn]
    · simp [build_image, hn, hfe]

/-- Witness for C7: build with no Dockerfile spawns nothing, and pull with
an empty name aborts with the validation message and no executor call. -/
theorem validation_no_spawn_c7_witness :
    (build_image envMissing "." "myimg").commands = []
  ∧ pyStrip "" = ""
  ∧ pull_image envOk ""
      = { commands := [],
          output := ["\n⬇️ DESCARGAR IMAGEN", "❌ Nombre de imagen no puede estar vacío"],
          fault := none } := by
  refine ⟨(validation_no_spawn_c7 envMissing "x" "." "myimg" "").2.2.2 (by decide),
    by decide, (validation_no_spawn_c7 envOk "x" "." "y" "").2.2.1 (by decide)⟩

/-- C8 counterexample: when the engine's stdout ends in a blank line, the
text printed by list_images is the stripped stdout, not the stdout itself,
refuting the claim that the printed text is exactly the engine's stdout
unmodified. -/
theorem list_output_trim_c8_counterexample :
    (list_images envUntrimmed).output
      = ["\n📦 IMÁGENES DOCKER DISPONIBLES:", dashes 80, "REPOSITORY   TAG\nnginx   latest"]
  ∧ "REPOSITORY   TAG\nnginx   latest" ≠ "REPOSITORY   TAG\nnginx   latest\n\n" := by
  refine ⟨by decide, by decide⟩

/-- C8 (amended): for a captured list operation whose engine invocation
succeeds with non-blank output, the body printed to the operator is the
engine's stdout with leading and trailing whitespace stripped and its
interior unmodified — no reformatting by the core. -/
theorem list_output_passthrough_c8 (env : Env) (r : SpawnResult)
    (h : env.spawn images_cmd = .ran r) (h0 : r.returncode = 0)
    (hne : (pyStrip r.stdout).isEmpty = false) :
    (list_images env).output
      = ["\n📦 IMÁGENES DOCKER DISPONIBLES:", dashes 80, pyStrip r.stdout] := by
  unfold list_images run_command
  rw [h]
  simp [h0, hne]

/-- Witness for C8 (amended) at a concrete tabular stdout. -/
theorem list_output_passthrough_c8_witness :
    (list_images envOk).output
      = ["\n📦 IMÁGENES DOCKER DISPONIBLES:", dashes 80, "OUT"] := by
  have h := list_output_passthrough_c8 envOk
      { returncode := 0, stdout := "OUT\n", stderr := "" } rfl rfl (by decide)
  have e : pyStrip "OUT\n" = "OUT" := by decide
  simp only [e] at h
  exact h

/-- C9: in every menu state, an operator selection matching no option of
that state is a no-op transition: the controller stays in the same state,
dispatches no resource operation, and prints exactly one diagnostic
line. -/
theorem invalid_option_noop_c9 (s : MenuState) (raw : String)
    (h : pyStrip raw ∉ menu_options s) :
    menu_step s raw = (some s, none, ["❌ Opción inválida"]) := by
  cases s with
  | main =>
      simp only [menu_options, List.mem_cons, List.not_mem_nil, or_false, not_or] at h
      obtain ⟨h1, h2, h3, h4⟩ := h
      simp [menu_step, h1, h2, h3, h4]
  | image =>
      simp only [menu_options, List.mem_cons, List.not_mem_nil, or_false, not_or] at h
      obtain ⟨h1, h2, h3, h4, h5⟩ := h
      simp [menu_step, h1, h2, h3, h4, h5]
  | container =>
      simp only [menu_options, List.mem_cons, List.not_mem_nil, or_false, not_or] at h
      obtain ⟨h1, h2, h3, h4, h5, h6, h7, h8, h9, h10⟩ := h
      simp [menu_step, h1, h2, h3, h4, h5, h6, h7, h8, h9, h10]
  | system =>
      simp only [menu_options, List.mem_cons, List.not_mem_nil, or_false, not_or] at h
      obtain ⟨h1, h2, h3, h4⟩ := h
      simp [menu_step, h1, h2, h3, h4]

/-- Witness for C9: the unrecognized selection 99 in the container menu. -/
theorem invalid_option_noop_c9_witness :
    pyStrip "99" ∉ menu_options MenuState.container
  ∧ menu_step MenuState.container "99"
      = (some MenuState.container, none, ["❌ Opción inválida"]) :=
  ⟨by decide, invalid_option_noop_c9 MenuState.container "99" (by decide)⟩

/-- C10: a captured invocation that exits zero with whitespace-only stdout
makes run_command return the empty string, which the truthiness check of
the calling operations treats as failure, so stop_container and
run_container print their error line even though the engine command
succeeded. -/
theorem empty_stdout_conflation_c10 (env : Env) (id_raw image_raw : String)
    (r1 r2 : SpawnResult)
    (hid : (pyStrip id_raw).isEmpty = false)
    (hl : (list_containers env true).fault = none)
    (h1 : env.spawn ["docker", "stop", pyStrip id_raw] = .ran r1)
    (h10 : r1.returncode = 0) (h1s : pyStrip r1.stdout = "")
    (himg : (pyStrip image_raw).isEmpty = false)
    (h2 : env.spawn (build_run_args (pyStrip image_raw) "" "") = .ran r2)
    (h20 : r2.returncode = 0) (h2s : pyStrip r2.stdout = "") :
    run_command env ["docker", "stop", pyStrip id_raw] = .ok (some "", [])
  ∧ truthy (some "") = false
  ∧ (stop_container env id_raw).output
      = (list_containers env true).output
        ++ ["\n⏹️ DETENER CONTENEDOR",
            "❌ Error al detener el contenedor " ++ pyStrip id_raw]
  ∧ (run_container env image_raw "" "").output
      = ["\n🚀 EJECUTAR CONTENEDOR", "❌ Error al iniciar el contenedor"] := by
  have hemp : pyStrip "" = "" := by decide
  have hrc1 : run_command env ["docker", "stop", pyStrip id_raw] = .ok (some "", []) := by
    unfold run_command
    rw [h1]
    simp [h10, h1s]
  have hrc2 : run_command env (build_run_args (pyStrip image_raw) "" "")
      = .ok (some "", []) := by
    unfold run_command
    rw [h2]
    simp [h20, h2s]
  have hie : ("" : String).isEmpty = true := rfl
  refine ⟨hrc1, rfl, ?_, ?_⟩
  · simp only [stop_container, hl, hid, Bool.false_eq_true, if_false, hrc1]
    simp [truthy, hie]
  · simp only [run_container, hemp, himg, Bool.false_eq_true, if_false, hrc2]
    simp [hie]

/-- Witness for C10: every command in this environment exits zero with
whitespace-only stdout, and both operations report their error line. -/
theorem empty_stdout_conflation_c10_witness :
    run_command envBlank ["docker", "stop", "web1"] = .ok (some "", [])
  ∧ (stop_container envBlank "web1").output
      = (list_containers envBlank true).output
        ++ ["\n⏹️ DETENER CONTENEDOR", "❌ Error al detener el contenedor web1"]
  ∧ (run_container envBlank "nginx" "" "").output
      = ["\n🚀 EJECUTAR CONTENEDOR", "❌ Error al iniciar el contenedor"] := by
  have h := empty_stdout_conflation_c10 envBlank "web1" "nginx"
      { returncode := 0, stdout := "  \n", stderr := "" }
      { returncode := 0, stdout := "  \n", stderr := "" }
      (by decide) (by decide) rfl rfl (by decide) (by decide) rfl rfl (by decide)
  have e : pyStrip "web1" = "web1" := by decide
  simp only [e] at h
  exact ⟨h.1, h.2.2.1, h.2.2.2⟩
